import Mathlib

/-!
Campus Resource Hub — scheduling engine, shallow embedding.

A shallow embedding of the booking conflict-detection and availability-slot
logic of `src/src/data_access/booking_dal.py` (class `BookingDAL`), together
with theorems checking the natural-language specification against it.

Modelling conventions:
* Timestamps are `Int` (think: minutes).  The Python code stores ISO-8601
  strings in SQLite and compares them lexicographically; for uniformly
  formatted timestamps that order coincides with chronological order, which
  the integer order models directly.
* The SQLite tables `bookings` and `resource_unavailable_slots` become lists
  inside a `DB` value; each `classmethod` of `BookingDAL` becomes a function
  taking the `DB` explicitly (and returning the new `DB` when it writes).
* Python code that can raise becomes `Except DALError`; `ValueError` is the
  only exception the embedded fragment raises.
* Python truthiness is embedded faithfully: `if exclude_booking_id:` is true
  only for a present *and nonzero* id.
-/

namespace CampusHub

/-- Booking lifecycle status (column `bookings.status`). -/
inductive Status where
  | pending
  | approved
  | rejected
  | cancelled
  | completed
deriving DecidableEq, Repr

/-- A row of the `bookings` table (the columns the scheduling logic reads). -/
structure Booking where
  booking_id : Nat
  resource_id : Nat
  requester_id : Nat
  start_datetime : Int
  end_datetime : Int
  status : Status
  notes : Option String
deriving DecidableEq, Repr

/-- A row of the `resource_unavailable_slots` table (a blackout interval). -/
structure UnavailableSlot where
  resource_id : Nat
  start_datetime : Int
  end_datetime : Int
deriving DecidableEq, Repr

/-- The repository state: the two tables the scheduling logic touches, plus
the id the next `INSERT INTO bookings` would allocate. -/
structure DB where
  bookings : List Booking
  unavailable_slots : List UnavailableSlot
  next_booking_id : Nat
deriving DecidableEq, Repr

/-- Embeds `status IN ('approved', 'pending')` from the conflict query. -/
def statusActive (s : Status) : Bool :=
  s == .approved || s == .pending

/-- The `WHERE` clause of the booking-conflict query in
`BookingDAL.has_booking_conflict`: same resource, active status, strict
interval overlap, and — only when `exclude_booking_id` is truthy in Python's
sense (present and nonzero) — `booking_id != exclude_booking_id`. -/
def bookingMatches (rid : Nat) (startDT endDT : Int) (exclude : Option Nat)
    (b : Booking) : Bool :=
  b.resource_id == rid
    && statusActive b.status
    && decide (b.start_datetime < endDT)
    && decide (b.end_datetime > startDT)
    && (match exclude with
        | some e => if e != 0 then b.booking_id != e else true
        | none => true)

/-- The `WHERE` clause of the unavailable-slot query in
`BookingDAL.has_booking_conflict` (and of the blackout query in
`BookingDAL.get_available_slots`): same resource and strict interval
overlap. -/
def unavailableMatches (rid : Nat) (startDT endDT : Int)
    (u : UnavailableSlot) : Bool :=
  u.resource_id == rid
    && decide (u.start_datetime < endDT)
    && decide (u.end_datetime > startDT)

/-- Embeds `BookingDAL.has_booking_conflict`.  Counts active bookings of the
resource whose interval strictly overlaps the proposed one (applying the
exclusion filter only when the excluded id is truthy); if the count is
positive, conflict; otherwise counts strictly overlapping blackout slots. -/
def has_booking_conflict (db : DB) (resource_id : Nat)
    (start_datetime end_datetime : Int) (exclude_booking_id : Option Nat) :
    Bool :=
  let booking_conflicts :=
    db.bookings.countP
      (bookingMatches resource_id start_datetime end_datetime
        exclude_booking_id)
  if booking_conflicts > 0 then
    true
  else
    db.unavailable_slots.countP
      (unavailableMatches resource_id start_datetime end_datetime) > 0

/-- The exception values the embedded fragment can raise.  The only one is
the `ValueError("end_datetime must be after start_datetime")` raised by
`create_booking` and `update_booking`; the message is constant, so it is
not carried as data. -/
inductive DALError where
  | valueError
deriving DecidableEq, Repr

/-- Embeds `BookingDAL.create_booking`.  Raises `ValueError` when the interval is
inverted or empty, returns `none` (and leaves the table untouched) on a
conflict, otherwise inserts the row and returns the fresh id. -/
def create_booking (db : DB) (resource_id requester_id : Nat)
    (start_datetime end_datetime : Int) (notes : Option String)
    (approval_required : Bool) : Except DALError (Option Nat × DB) :=
  if end_datetime ≤ start_datetime then
    .error .valueError
  else if has_booking_conflict db resource_id start_datetime end_datetime
      none then
    .ok (none, db)
  else
    let status := if approval_required then Status.pending
      else Status.approved
    let row : Booking :=
      { booking_id := db.next_booking_id
        resource_id := resource_id
        requester_id := requester_id
        start_datetime := start_datetime
        end_datetime := end_datetime
        status := status
        notes := notes }
    .ok (some db.next_booking_id,
      { db with
          bookings := db.bookings ++ [row]
          next_booking_id := db.next_booking_id + 1 })

/-- Embeds `BookingDAL.get_booking_by_id`: the first row with the given id. -/
def get_booking_by_id (db : DB) (booking_id : Nat) : Option Booking :=
  db.bookings.find? (fun b => b.booking_id == booking_id)

/-- The `UPDATE bookings SET ... WHERE booking_id = ?` statement issued at
the end of `BookingDAL.update_booking`: each requested field is overwritten
on every row with the given id. -/
def applyBookingUpdate (db : DB) (booking_id : Nat)
    (start_datetime end_datetime : Option Int) (notes : Option String) :
    DB :=
  { db with
      bookings := db.bookings.map (fun b =>
        if b.booking_id == booking_id then
          { b with
              start_datetime := start_datetime.getD b.start_datetime
              end_datetime := end_datetime.getD b.end_datetime
              notes := match notes with
                | some v => some v
                | none => b.notes }
        else b) }

/-- Embeds `BookingDAL.update_booking`.  Returns `false` (untouched state) when the
booking is missing or the revalidation (with the booking itself excluded)
finds a conflict; raises `ValueError` on an inverted interval; otherwise
performs the update and returns `true`. -/
def update_booking (db : DB) (booking_id : Nat)
    (start_datetime end_datetime : Option Int) (notes : Option String) :
    Except DALError (Bool × DB) :=
  match get_booking_by_id db booking_id with
  | none => .ok (false, db)
  | some booking =>
    if start_datetime.isSome || end_datetime.isSome then
      let new_start := start_datetime.getD booking.start_datetime
      let new_end := end_datetime.getD booking.end_datetime
      if new_end ≤ new_start then
        .error .valueError
      else if has_booking_conflict db booking.resource_id new_start new_end
          (some booking_id) then
        .ok (false, db)
      else
        .ok (true,
          applyBookingUpdate db booking_id start_datetime end_datetime notes)
    else
      if start_datetime.isNone && end_datetime.isNone && notes.isNone then
        .ok (false, db)
      else
        .ok (true,
          applyBookingUpdate db booking_id start_datetime end_datetime notes)

/-- Insertion step for the `ORDER BY b.start_datetime ASC` model. -/
def insertByStart (b : Booking) : List Booking → List Booking
  | [] => [b]
  | c :: cs =>
    if b.start_datetime ≤ c.start_datetime then b :: c :: cs
    else c :: insertByStart b cs

/-- Embeds `ORDER BY b.start_datetime ASC`, modelled as an insertion sort. -/
def sortByStart : List Booking → List Booking
  | [] => []
  | b :: bs => insertByStart b (sortByStart bs)

/-- The row filter of `BookingDAL.get_bookings_by_resource`: same resource,
then — for each filter that is actually passed — `end_datetime >= ?`
(start of range), `start_datetime <= ?` (end of range), `status = ?`. -/
def resourceRangeMatches (resource_id : Nat)
    (start_date end_date : Option Int) (status : Option Status)
    (b : Booking) : Bool :=
  b.resource_id == resource_id
    && (match start_date with
        | some sd => decide (b.end_datetime ≥ sd)
        | none => true)
    && (match end_date with
        | some ed => decide (b.start_datetime ≤ ed)
        | none => true)
    && (match status with
        | some st => b.status == st
        | none => true)

/-- Embeds `BookingDAL.get_bookings_by_resource`: filter, order by start ascending,
then `LIMIT ? OFFSET ?`. -/
def get_bookings_by_resource (db : DB) (resource_id : Nat)
    (start_date end_date : Option Int) (status : Option Status)
    (limit offsetRows : Nat) : List Booking :=
  (((sortByStart
      (db.bookings.filter
        (resourceRangeMatches resource_id start_date end_date status))).drop
    offsetRows).take limit)

/-- One entry of the `blocked_times` list in `BookingDAL.get_available_slots`
(a Python dict with keys `start` and `end`; `end` is a Lean keyword, so the
second field is named `stop`). -/
structure BlockedTime where
  start : Int
  stop : Int
deriving DecidableEq, Repr

/-- One entry of the result list of `BookingDAL.get_available_slots`
(a Python dict with keys `start_datetime` and `end_datetime`). -/
structure AvailableSlot where
  start_datetime : Int
  end_datetime : Int
deriving DecidableEq, Repr

/-- Insertion step for `blocked_times.sort(key=lambda x: x['start'])`. -/
def insertBlocked (b : BlockedTime) : List BlockedTime → List BlockedTime
  | [] => [b]
  | c :: cs =>
    if b.start ≤ c.start then b :: c :: cs
    else c :: insertBlocked b cs

/-- Embeds `blocked_times.sort(key=lambda x: x['start'])`, as an insertion sort. -/
def sortBlocked : List BlockedTime → List BlockedTime
  | [] => []
  | b :: bs => insertBlocked b (sortBlocked bs)

/-- The `blocked_times` list built by `BookingDAL.get_available_slots`:
bookings fetched through `get_bookings_by_resource(resource_id, start_date,
end_date, status='approved')` (with its default `limit=100, offset=0`),
then the strictly overlapping blackout slots, sorted by start. -/
def blockedTimes (db : DB) (resource_id : Nat)
    (start_date end_date : Int) : List BlockedTime :=
  let bookings := get_bookings_by_resource db resource_id
    (some start_date) (some end_date) (some .approved) 100 0
  let unavailable := db.unavailable_slots.filter
    (unavailableMatches resource_id start_date end_date)
  sortBlocked
    (bookings.map (fun b => ⟨b.start_datetime, b.end_datetime⟩)
      ++ unavailable.map (fun u => ⟨u.start_datetime, u.end_datetime⟩))

/-- The inner `for blocked in blocked_times` loop of the scan: the first
blocked entry strictly overlapping the candidate `[cur, slotEnd)`, if any,
reported by its `end` (the value the cursor is set to before `break`). -/
def findBlockingStop (cur slotEnd : Int) : List BlockedTime → Option Int
  | [] => none
  | b :: bs =>
    if decide (cur < b.stop) && decide (slotEnd > b.start) then some b.stop
    else findBlockingStop cur slotEnd bs

/-- The `while current_time + slot_duration <= end_date` scan of
`BookingDAL.get_available_slots`, with an explicit fuel so the embedding is
total: `none` means the fuel ran out before the loop exited (the Python
loop is still running), `some out` means the loop exited normally with
result `out`.  Each iteration either appends the candidate and moves the
cursor to its end, or jumps the cursor to the blocking entry's end
(breaking out of the loop early when that end already reaches the window
end, mirroring the `elif current_time >= end_date: break`). -/
def slotScan (end_date slot_duration : Int) (blocked : List BlockedTime) :
    Nat → Int → List AvailableSlot → Option (List AvailableSlot)
  | 0, _, _ => none
  | fuel + 1, current_time, acc =>
    if current_time + slot_duration ≤ end_date then
      let slot_end := current_time + slot_duration
      match findBlockingStop current_time slot_end blocked with
      | none =>
        slotScan end_date slot_duration blocked fuel slot_end
          (acc ++ [⟨current_time, slot_end⟩])
      | some blockedStop =>
        if blockedStop ≥ end_date then some acc
        else slotScan end_date slot_duration blocked fuel blockedStop acc
    else
      some acc

/-- Embeds `BookingDAL.get_available_slots`: build `blocked_times`, then run the
scan from `start_date` with fuel `(end_date - start_date).toNat + 1`, which
suffices whenever the slot duration is positive (see the termination
theorem); `slot_duration_minutes` is in the same time unit as the
timestamps. -/
def get_available_slots (db : DB) (resource_id : Nat)
    (start_date end_date : Int) (slot_duration_minutes : Int) :
    Option (List AvailableSlot) :=
  slotScan end_date slot_duration_minutes
    (blockedTimes db resource_id start_date end_date)
    ((end_date - start_date).toNat + 1) start_date []

/-- The conflict condition as the specification words it (§4.1): some active
reservation of the resource, *other than the excluded id whenever one is
given*, strictly overlaps the proposed interval, or some blackout slot of
the resource does.  Used to compare the specified exclusion semantics with
the implemented (truthiness-guarded) one. -/
def spec_has_conflict (db : DB) (resource_id : Nat)
    (start_datetime end_datetime : Int) (exclude_booking_id : Option Nat) :
    Bool :=
  db.bookings.any (fun b =>
    b.resource_id == resource_id
      && statusActive b.status
      && decide (b.start_datetime < end_datetime)
      && decide (b.end_datetime > start_datetime)
      && (match exclude_booking_id with
          | some e => b.booking_id != e
          | none => true))
  || db.unavailable_slots.any
      (unavailableMatches resource_id start_datetime end_datetime)

/-- The simple tiling of `[cur, end_date)` into back-to-back chunks of
length `slot_duration`, last incomplete chunk dropped — the result the
specification prescribes for an empty blocked set (§4.2, edge cases),
written with the same fuel discipline as the scan. -/
def spec_tiling (end_date slot_duration : Int) :
    Nat → Int → List AvailableSlot
  | 0, _ => []
  | fuel + 1, cur =>
    if cur + slot_duration ≤ end_date then
      ⟨cur, cur + slot_duration⟩ ::
        spec_tiling end_date slot_duration fuel (cur + slot_duration)
    else
      []

/-- Booking-row fixture: id, resource, interval and status as given, with
requester 1 and no notes. -/
def mkBooking (booking_id resource_id : Nat) (s e : Int) (st : Status) :
    Booking :=
  ⟨booking_id, resource_id, 1, s, e, st, none⟩

/-- Fixture: the empty repository. -/
def emptyDB : DB := ⟨[], [], 1⟩

/-- Fixture: one approved booking `[540, 660)` on resource 1
(09:00–11:00 as minutes of the day). -/
def scanDB : DB := ⟨[mkBooking 1 1 540 660 .approved], [], 2⟩

/-- Fixture: one *pending* booking `[540, 660)` on resource 1. -/
def pendingDB : DB := ⟨[mkBooking 1 1 540 660 .pending], [], 2⟩

/-- Fixture: one approved booking `[0, 1000)` on resource 1. -/
def wideDB : DB := ⟨[mkBooking 1 1 0 1000 .approved], [], 2⟩

/-- Fixture: one cancelled booking `[600, 720)` on resource 1. -/
def cancelledDB : DB := ⟨[mkBooking 1 1 600 720 .cancelled], [], 2⟩

/-- Fixture: one approved booking `[600, 720)` on resource 1. -/
def resADB : DB := ⟨[mkBooking 1 1 600 720 .approved], [], 2⟩

/-- Fixture: one approved booking `[600, 720)` on resource 1 whose stored
id is 0 — representable in SQLite (an explicitly inserted rowid 0) and in
the bookings table, and the input on which the truthiness-guarded
exclusion filter differs from the specified one. -/
def idZeroDB : DB := ⟨[mkBooking 0 1 600 720 .approved], [], 1⟩

/-- Fixture: two approved bookings `[0, 100)` on resource 1, ids 1 and 2. -/
def twinDB : DB :=
  ⟨[mkBooking 1 1 0 100 .approved, mkBooking 2 1 0 100 .approved], [], 3⟩

theorem mem_insertByStart (b a : Booking) (l : List Booking) :
    a ∈ insertByStart b l ↔ a = b ∨ a ∈ l := by
  induction l with
  | nil => simp [insertByStart]
  | cons c cs ih =>
    by_cases h : b.start_datetime ≤ c.start_datetime
    · simp [insertByStart, h]
    · simp only [insertByStart, if_neg h, List.mem_cons, ih]
      tauto

theorem mem_sortByStart (a : Booking) (l : List Booking) :
    a ∈ sortByStart l ↔ a ∈ l := by
  induction l with
  | nil => simp [sortByStart]
  | cons c cs ih => simp [sortByStart, mem_insertByStart, ih]

theorem length_insertByStart (b : Booking) (l : List Booking) :
    (insertByStart b l).length = l.length + 1 := by
  induction l with
  | nil => simp [insertByStart]
  | cons c cs ih =>
    by_cases h : b.start_datetime ≤ c.start_datetime
    · simp [insertByStart, h]
    · simp [insertByStart, h, ih]

theorem length_sortByStart (l : List Booking) :
    (sortByStart l).length = l.length := by
  induction l with
  | nil => rfl
  | cons c cs ih => simp [sortByStart, length_insertByStart, ih]

theorem mem_insertBlocked (b a : BlockedTime) (l : List BlockedTime) :
    a ∈ insertBlocked b l ↔ a = b ∨ a ∈ l := by
  induction l with
  | nil => simp [insertBlocked]
  | cons c cs ih =>
    by_cases h : b.start ≤ c.start
    · simp [insertBlocked, h]
    · simp only [insertBlocked, if_neg h, List.mem_cons, ih]
      tauto

theorem mem_sortBlocked (a : BlockedTime) (l : List BlockedTime) :
    a ∈ sortBlocked l ↔ a ∈ l := by
  induction l with
  | nil => simp [sortBlocked]
  | cons c cs ih => simp [sortBlocked, mem_insertBlocked, ih]

theorem get_bookings_by_resource_no_truncation (db : DB) (rid : Nat)
    (sd ed : Option Int) (st : Option Status)
    (h : (db.bookings.filter (resourceRangeMatches rid sd ed st)).length
      ≤ 100) :
    get_bookings_by_resource db rid sd ed st 100 0 =
      sortByStart (db.bookings.filter (resourceRangeMatches rid sd ed st)) :=
  by
  unfold get_bookings_by_resource
  rw [List.drop_zero, List.take_of_length_le]
  rw [length_sortByStart]
  exact h

theorem findBlockingStop_lt (cur se s : Int) (l : List BlockedTime)
    (h : findBlockingStop cur se l = some s) : cur < s := by
  induction l with
  | nil => simp [findBlockingStop] at h
  | cons b bs ih =>
    simp only [findBlockingStop, Bool.and_eq_true, decide_eq_true_eq] at h
    split at h
    · next hc =>
      cases h
      exact hc.1
    · exact ih h

theorem slotScan_isSome_of_fuel (we dur : Int) (blocked : List BlockedTime)
    (hdur : 1 ≤ dur) :
    ∀ (fuel : Nat) (cur : Int) (acc : List AvailableSlot),
      (we - cur).toNat < fuel →
      (slotScan we dur blocked fuel cur acc).isSome = true := by
  intro fuel
  induction fuel with
  | zero =>
    intro cur acc h
    omega
  | succ n ih =>
    intro cur acc h
    simp only [slotScan]
    by_cases hle : cur + dur ≤ we
    · rw [if_pos hle]
      cases hfind : findBlockingStop cur (cur + dur) blocked with
      | none =>
        exact ih (cur + dur) (acc ++ [⟨cur, cur + dur⟩]) (by omega)
      | some bStop =>
        by_cases hge : bStop ≥ we
        · simp [hge]
        · have hlt := findBlockingStop_lt cur (cur + dur) bStop blocked hfind
          simp only [hge, if_false]
          exact ih bStop acc (by omega)
    · rw [if_neg hle]
      rfl

theorem slotScan_nil_tiling (we dur : Int) (hdur : 1 ≤ dur) :
    ∀ (fuel : Nat) (cur : Int) (acc : List AvailableSlot),
      (we - cur).toNat < fuel →
      slotScan we dur [] fuel cur acc =
        some (acc ++ spec_tiling we dur fuel cur) := by
  intro fuel
  induction fuel with
  | zero =>
    intro cur acc h
    omega
  | succ n ih =>
    intro cur acc h
    simp only [slotScan, spec_tiling, findBlockingStop]
    by_cases hle : cur + dur ≤ we
    · rw [if_pos hle, if_pos hle]
      have h2 := ih (cur + dur) (acc ++ [(⟨cur, cur + dur⟩ : AvailableSlot)])
        (by omega)
      rw [h2]
      simp
    · rw [if_neg hle, if_neg hle]
      simp

theorem slotScan_mem_length (we dur : Int) (blocked : List BlockedTime) :
    ∀ (fuel : Nat) (cur : Int) (acc out : List AvailableSlot),
      slotScan we dur blocked fuel cur acc = some out →
      ∀ sl ∈ out, sl ∈ acc ∨ sl.end_datetime - sl.start_datetime = dur := by
  intro fuel
  induction fuel with
  | zero =>
    intro cur acc out h
    simp [slotScan] at h
  | succ n ih =>
    intro cur acc out h
    simp only [slotScan] at h
    by_cases hle : cur + dur ≤ we
    · rw [if_pos hle] at h
      cases hfind : findBlockingStop cur (cur + dur) blocked with
      | none =>
        rw [hfind] at h
        intro sl hsl
        rcases ih (cur + dur) (acc ++ [⟨cur, cur + dur⟩]) out h sl hsl with
          hmem | hlen
        · rcases List.mem_append.mp hmem with hacc | hnew
          · exact Or.inl hacc
          · right
            have : sl = (⟨cur, cur + dur⟩ : AvailableSlot) := by
              simpa using hnew
            rw [this]
            simp
        · exact Or.inr hlen
      | some bStop =>
        rw [hfind] at h
        by_cases hge : bStop ≥ we
        · simp only [hge, if_true] at h
          cases h
          intro sl hsl
          exact Or.inl hsl
        · simp only [hge, if_false] at h
          exact ih bStop acc out h
    · rw [if_neg hle] at h
      cases h
      intro sl hsl
      exact Or.inl hsl

theorem bookingMatches_iff (rid : Nat) (s e : Int) (ex : Option Nat)
    (b : Booking) :
    bookingMatches rid s e ex b = true ↔
      (b.resource_id = rid ∧ (b.status = .pending ∨ b.status = .approved) ∧
        b.start_datetime < e ∧ s < b.end_datetime ∧
        (∀ i : Nat, ex = some i → i ≠ 0 → b.booking_id ≠ i)) := by
  cases ex with
  | none =>
    simp [bookingMatches, statusActive, and_assoc]
    tauto
  | some i =>
    by_cases hi : i = 0
    · subst hi
      simp [bookingMatches, statusActive, and_assoc]
      tauto
    · simp [bookingMatches, statusActive, hi, and_assoc]
      tauto

theorem unavailableMatches_iff (rid : Nat) (s e : Int) (u : UnavailableSlot) :
    unavailableMatches rid s e u = true ↔
      (u.resource_id = rid ∧ u.start_datetime < e ∧ s < u.end_datetime) := by
  simp [unavailableMatches, Bool.and_eq_true, and_assoc]

theorem resourceRangeMatches_iff (rid : Nat) (ws we : Int) (b : Booking) :
    resourceRangeMatches rid (some ws) (some we) (some .approved) b =
      true ↔
      (b.resource_id = rid ∧ ws ≤ b.end_datetime ∧
        b.start_datetime ≤ we ∧ b.status = .approved) := by
  simp [resourceRangeMatches, and_assoc]

theorem has_booking_conflict_eq_true_iff (db : DB) (rid : Nat) (s e : Int)
    (ex : Option Nat) :
    has_booking_conflict db rid s e ex = true ↔
      ((∃ b ∈ db.bookings, bookingMatches rid s e ex b = true) ∨
        ∃ u ∈ db.unavailable_slots, unavailableMatches rid s e u = true) := by
  simp only [has_booking_conflict]
  by_cases h1 : db.bookings.countP (bookingMatches rid s e ex) > 0
  · rw [if_pos h1]
    simp only [true_iff]
    exact Or.inl (List.countP_pos_iff.mp h1)
  · rw [if_neg h1]
    constructor
    · intro h2
      exact Or.inr (List.countP_pos_iff.mp (by simpa using h2))
    · rintro (hb | hu)
      · exact absurd (List.countP_pos_iff.mpr hb) h1
      · simpa using List.countP_pos_iff.mpr hu

theorem countP_bookings_resource_restrict (l : List Booking) (rid : Nat)
    (s e : Int) (ex : Option Nat) :
    l.countP (bookingMatches rid s e ex) =
      (l.filter (fun b => b.resource_id == rid)).countP
        (bookingMatches rid s e ex) := by
  rw [List.countP_filter]
  refine List.countP_congr ?_
  intro b _
  cases hres : (b.resource_id == rid) with
  | false => simp [bookingMatches, hres]
  | true => simp

theorem countP_unavailable_resource_restrict (l : List UnavailableSlot)
    (rid : Nat) (s e : Int) :
    l.countP (unavailableMatches rid s e) =
      (l.filter (fun u => u.resource_id == rid)).countP
        (unavailableMatches rid s e) := by
  rw [List.countP_filter]
  refine List.countP_congr ?_
  intro u _
  cases hres : (u.resource_id == rid) with
  | false => simp [unavailableMatches, hres]
  | true => simp

/-- C1, counterexample.  The claim's exclusion clause — "other than the
excluded id, if given" — fails on the code for an excluded id of 0: the
Python guard `if exclude_booking_id:` is false for 0, so the filter
`booking_id != ?` is not added and a stored booking with id 0 is compared
although its id was given as excluded.  On a repository holding exactly one
approved booking with id 0 at `[600, 720)`, the code reports a conflict for
`[600, 720)` with `exclude_booking_id = 0`, while the specified condition
(`spec_has_conflict`, which always honours the exclusion) is false. -/
theorem c1_exclude_zero_counterexample :
    (600 : Int) < 720 ∧
      has_booking_conflict idZeroDB 1 600 720 (some 0) = true ∧
      spec_has_conflict idZeroDB 1 600 720 (some 0) = false := by
  decide

/-- C1 (amended): for every repository state, resource, proposed interval
with `end > start` and optional excluded id, `has_booking_conflict` returns
true iff some reservation of that resource with status pending or approved
— other than the excluded id, *when the excluded id is given and nonzero* —
satisfies `existing.start < proposed.end ∧ proposed.start < existing.end`,
or some blackout slot of that resource satisfies the same strict
inequalities; intervals merely touching at an endpoint make both strict
inequalities fail, so they never cause a conflict. -/
theorem has_conflict_characterization (db : DB) (rid : Nat) (s e : Int)
    (ex : Option Nat) (_hvalid : s < e) :
    has_booking_conflict db rid s e ex = true ↔
      ((∃ b ∈ db.bookings,
          b.resource_id = rid ∧
          (b.status = .pending ∨ b.status = .approved) ∧
          b.start_datetime < e ∧ s < b.end_datetime ∧
          (∀ i : Nat, ex = some i → i ≠ 0 → b.booking_id ≠ i)) ∨
        (∃ u ∈ db.unavailable_slots,
          u.resource_id = rid ∧ u.start_datetime < e ∧
          s < u.end_datetime)) := by
  rw [has_booking_conflict_eq_true_iff]
  apply or_congr
  · exact exists_congr fun b =>
      and_congr_right fun _ => bookingMatches_iff rid s e ex b
  · exact exists_congr fun u =>
      and_congr_right fun _ => unavailableMatches_iff rid s e u

/-- C1, witness: the characterization applied to a concrete repository
holding one approved booking `[600, 720)` on resource 1. -/
theorem has_conflict_characterization_witness :
    (600 : Int) < 720 ∧
      (has_booking_conflict resADB 1 600 720 none = true ↔
        ((∃ b ∈ resADB.bookings,
            b.resource_id = 1 ∧
            (b.status = .pending ∨ b.status = .approved) ∧
            b.start_datetime < 720 ∧ (600 : Int) < b.end_datetime ∧
            (∀ i : Nat, (none : Option Nat) = some i → i ≠ 0 →
              b.booking_id ≠ i)) ∨
          (∃ u ∈ resADB.unavailable_slots,
            u.resource_id = 1 ∧ u.start_datetime < 720 ∧
            (600 : Int) < u.end_datetime))) :=
  ⟨by decide, has_conflict_characterization resADB 1 600 720 none (by decide)⟩

/-- C5 (confirmed): a reservation whose status is rejected, cancelled or
completed never affects `has_booking_conflict` — adding such a row to the
bookings table leaves the result unchanged on every input — and, in
particular, a repository holding only a cancelled reservation `[600, 720)`
on resource 1 reports no conflict for a new `[600, 720)` request on that
resource. -/
theorem inactive_status_never_conflicts :
    (∀ (db : DB) (b : Booking) (rid : Nat) (s e : Int) (ex : Option Nat),
      (b.status = .rejected ∨ b.status = .cancelled ∨
        b.status = .completed) →
      has_booking_conflict
        ⟨b :: db.bookings, db.unavailable_slots, db.next_booking_id⟩
        rid s e ex = has_booking_conflict db rid s e ex) ∧
    has_booking_conflict cancelledDB 1 600 720 none = false := by
  constructor
  · intro db b rid s e ex hst
    have hmatch : bookingMatches rid s e ex b = false := by
      rcases hst with h | h | h <;> simp [bookingMatches, statusActive, h]
    simp [has_booking_conflict, List.countP_cons, hmatch]
  · decide

/-- C5, witness: the invariance applied to a concrete inactive booking on
top of the empty repository. -/
theorem inactive_status_never_conflicts_witness :
    ((mkBooking 1 1 600 720 .cancelled).status = .rejected ∨
      (mkBooking 1 1 600 720 .cancelled).status = .cancelled ∨
      (mkBooking 1 1 600 720 .cancelled).status = .completed) ∧
    has_booking_conflict
      ⟨mkBooking 1 1 600 720 .cancelled :: emptyDB.bookings,
        emptyDB.unavailable_slots, emptyDB.next_booking_id⟩
      1 600 720 none = has_booking_conflict emptyDB 1 600 720 none :=
  ⟨by decide,
    inactive_status_never_conflicts.1 emptyDB
      (mkBooking 1 1 600 720 .cancelled) 1 600 720 none (by decide)⟩

/-- C7 (confirmed, noninterference): `has_booking_conflict` for a resource
depends only on the bookings and blackout slots of that resource — two
repository states whose tables agree on the rows of the queried resource
(they may differ arbitrarily on rows of other resources) yield the same
result — and, in particular, a repository holding only an approved
reservation `[600, 720)` on resource 1 reports no conflict for
`[600, 720)` on resource 2. -/
theorem resource_isolation :
    (∀ (db1 db2 : DB) (rid : Nat) (s e : Int) (ex : Option Nat),
      db1.bookings.filter (fun b => b.resource_id == rid) =
        db2.bookings.filter (fun b => b.resource_id == rid) →
      db1.unavailable_slots.filter (fun u => u.resource_id == rid) =
        db2.unavailable_slots.filter (fun u => u.resource_id == rid) →
      has_booking_conflict db1 rid s e ex =
        has_booking_conflict db2 rid s e ex) ∧
    has_booking_conflict resADB 2 600 720 none = false := by
  constructor
  · intro db1 db2 rid s e ex hb hu
    have hbc : db1.bookings.countP (bookingMatches rid s e ex) =
        db2.bookings.countP (bookingMatches rid s e ex) := by
      rw [countP_bookings_resource_restrict db1.bookings rid s e ex, hb,
        ← countP_bookings_resource_restrict db2.bookings rid s e ex]
    have huc : db1.unavailable_slots.countP (unavailableMatches rid s e) =
        db2.unavailable_slots.countP (unavailableMatches rid s e) := by
      rw [countP_unavailable_resource_restrict db1.unavailable_slots rid s e,
        hu, ← countP_unavailable_resource_restrict db2.unavailable_slots
          rid s e]
    simp [has_booking_conflict, hbc, huc]
  · decide

/-- C7, witness: the noninterference applied to the concrete pair
(one approved booking on resource 1 ↔ empty repository), queried for
resource 2. -/
theorem resource_isolation_witness :
    resADB.bookings.filter (fun b => b.resource_id == 2) =
      emptyDB.bookings.filter (fun b => b.resource_id == 2) ∧
    resADB.unavailable_slots.filter (fun u => u.resource_id == 2) =
      emptyDB.unavailable_slots.filter (fun u => u.resource_id == 2) ∧
    has_booking_conflict resADB 2 600 720 none =
      has_booking_conflict emptyDB 2 600 720 none :=
  ⟨by decide, by decide,
    resource_isolation.1 resADB emptyDB 2 600 720 none (by decide)
      (by decide)⟩

/-- C8, counterexample.  A stored reservation whose id is 0: passing
`exclude_booking_id = 0` does *not* omit it (the Python guard
`if exclude_booking_id:` is false for 0), so revalidating its own interval
against an otherwise empty schedule reports a conflict caused by its own
stored record, contradicting the claim for every stored reservation. -/
theorem c8_exclude_zero_counterexample :
    (∀ b ∈ idZeroDB.bookings, b.booking_id = 0) ∧
      idZeroDB.unavailable_slots = [] ∧
      has_booking_conflict idZeroDB 1 600 720 (some 0) = true := by
  decide

/-- C8 (amended): for every stored reservation R *with nonzero id*, calling
`has_booking_conflict` with `exclude_booking_id = R.id` never reports a
conflict caused by R's own stored interval: if every booking other than id
R.id fails the active-overlap test and every blackout slot fails the
overlap test, the result is false — regardless of R's own interval(s), so
revalidating an update of R against an otherwise conflict-free schedule
succeeds even when the new interval overlaps R's prior one. -/
theorem exclusion_omits_own_record (db : DB) (rid : Nat) (s e : Int)
    (i : Nat) (hi : i ≠ 0)
    (hothers : ∀ b ∈ db.bookings, b.booking_id ≠ i →
      ¬(b.resource_id = rid ∧
        (b.status = .pending ∨ b.status = .approved) ∧
        b.start_datetime < e ∧ s < b.end_datetime))
    (hblackouts : ∀ u ∈ db.unavailable_slots,
      ¬(u.resource_id = rid ∧ u.start_datetime < e ∧ s < u.end_datetime)) :
    has_booking_conflict db rid s e (some i) = false := by
  have hb : db.bookings.countP (bookingMatches rid s e (some i)) = 0 := by
    rw [List.countP_eq_zero]
    intro b hbmem hbmatch
    obtain ⟨h1, h2, h3, h4, h5⟩ :=
      (bookingMatches_iff rid s e (some i) b).mp hbmatch
    exact hothers b hbmem (h5 i rfl hi) ⟨h1, h2, h3, h4⟩
  have hu : db.unavailable_slots.countP (unavailableMatches rid s e) = 0 :=
    by
    rw [List.countP_eq_zero]
    intro u humem humatch
    exact hblackouts u humem ((unavailableMatches_iff rid s e u).mp humatch)
  simp [has_booking_conflict, hb, hu]

/-- C8, witness: revalidating the only stored reservation (id 1, interval
`[600, 720)`, resource 1) at its own interval with its own id excluded
reports no conflict. -/
theorem exclusion_omits_own_record_witness :
    (1 : Nat) ≠ 0 ∧
      has_booking_conflict resADB 1 600 720 (some 1) = false :=
  ⟨by decide,
    exclusion_omits_own_record resADB 1 600 720 1 (by decide)
      (by decide) (by decide)⟩

/-- C3, counterexample.  `has_booking_conflict` performs no interval
validation: called with `end_datetime = 600 ≤ 720 = start_datetime` it
does not raise, it returns a boolean — here `true`, because the inverted
interval still strictly overlaps the stored approved booking `[0, 1000)`
under the query's inequalities. -/
theorem c3_no_validation_counterexample :
    (600 : Int) ≤ 720 ∧
      has_booking_conflict wideDB 1 720 600 none = true := by
  decide

/-- C3 (amended): the `end <= start` check does not live in
`has_booking_conflict` (which returns a boolean for every input); it is
performed by its callers: `create_booking` and `update_booking` (when a
time change is requested) raise `ValueError` for `end <= start` before any
conflict check. -/
theorem invalid_interval_raises_in_callers :
    (∀ (db : DB) (rid req : Nat) (s e : Int) (n : Option String)
      (appr : Bool), e ≤ s →
      create_booking db rid req s e n appr = .error .valueError) ∧
    (∀ (db : DB) (bid : Nat) (sOpt eOpt : Option Int) (n : Option String)
      (b : Booking), get_booking_by_id db bid = some b →
      (sOpt.isSome || eOpt.isSome) = true →
      eOpt.getD b.end_datetime ≤ sOpt.getD b.start_datetime →
      update_booking db bid sOpt eOpt n = .error .valueError) := by
  constructor
  · intro db rid req s e n appr h
    simp [create_booking, h]
  · intro db bid sOpt eOpt n b hfind hsome hle
    simp [update_booking, hfind, hsome, hle]

/-- C3, witness: both callers raising on an inverted interval — creation
against the empty repository, and a time-change update of the stored
booking of `resADB`. -/
theorem invalid_interval_raises_in_callers_witness :
    (600 : Int) ≤ 720 ∧
      create_booking emptyDB 1 1 720 600 none false = .error .valueError ∧
      get_booking_by_id resADB 1 = some (mkBooking 1 1 600 720 .approved) ∧
      update_booking resADB 1 (some 720) (some 600) none =
        .error .valueError :=
  ⟨by decide,
    invalid_interval_raises_in_callers.1 emptyDB 1 1 720 600 none false
      (by decide),
    by decide,
    invalid_interval_raises_in_callers.2 resADB 1 (some 720) (some 600)
      none (mkBooking 1 1 600 720 .approved) (by decide) (by decide)
      (by decide)⟩

/-- C9, counterexample.  On `twinDB` (two approved `[0, 100)` bookings on
resource 1, ids 1 and 2), asking to move booking 1 to the inverted
interval `[50, 40)` satisfies the claim's hypothesis — the new times
conflict with the other active reservation under the overlap predicate,
with booking 1 excluded — yet `update_booking` raises `ValueError` instead
of returning `False`. -/
theorem c9_raise_counterexample :
    has_booking_conflict twinDB 1 50 40 (some 1) = true ∧
      update_booking twinDB 1 (some 50) (some 40) none =
        .error .valueError :=
  ⟨by decide, rfl⟩

/-- C9 (amended): `update_booking` is atomic on rejection — if the booking
does not exist, or the requested times form a valid interval
(`end > start`) that conflicts with another active reservation or blackout
slot (the booking itself excluded), it returns `False` and executes no
`UPDATE`: the returned repository state is exactly the input state.  (When
the requested times are inverted it raises `ValueError`, likewise without
updating.) -/
theorem update_booking_rejection_atomic (db : DB) (bid : Nat)
    (sOpt eOpt : Option Int) (n : Option String) :
    (get_booking_by_id db bid = none →
      update_booking db bid sOpt eOpt n = .ok (false, db)) ∧
    (∀ b : Booking, get_booking_by_id db bid = some b →
      (sOpt.isSome || eOpt.isSome) = true →
      sOpt.getD b.start_datetime < eOpt.getD b.end_datetime →
      has_booking_conflict db b.resource_id (sOpt.getD b.start_datetime)
        (eOpt.getD b.end_datetime) (some bid) = true →
      update_booking db bid sOpt eOpt n = .ok (false, db)) := by
  constructor
  · intro h
    simp [update_booking, h]
  · intro b hfind hsome hvalid hconf
    have hnle : ¬(eOpt.getD b.end_datetime ≤ sOpt.getD b.start_datetime) :=
      not_le.mpr hvalid
    simp [update_booking, hfind, hsome, hnle, hconf]

/-- C9, witness: both rejection branches on concrete inputs — a missing
booking id against the empty repository, and a conflicting time change on
`twinDB` — each returning `False` with the state unchanged. -/
theorem update_booking_rejection_atomic_witness :
    update_booking emptyDB 1 none none none = .ok (false, emptyDB) ∧
      update_booking twinDB 1 (some 10) (some 90) none =
        .ok (false, twinDB) :=
  ⟨(update_booking_rejection_atomic emptyDB 1 none none none).1 (by decide),
    (update_booking_rejection_atomic twinDB 1 (some 10) (some 90) none).2
      (mkBooking 1 1 0 100 .approved) (by decide) (by decide) (by decide)
      (by decide)⟩

/-- C2 (confirmed): when the candidate slot `[cursor, cursor + duration)`
overlaps a blocking interval, the scan advances the cursor to that
interval's end and retries (rather than advancing by one slot duration);
consequently, for window `[480, 840)` (08:00–14:00 in minutes), one active
reservation `[540, 660)` (09:00–11:00) and 60-minute slots, the result is
exactly `[480, 540), [660, 720), [720, 780), [780, 840)` — no slot starts
at 600 (10:00). -/
theorem scan_skips_past_block :
    (∀ (we dur : Int) (blocked : List BlockedTime) (fuel : Nat) (cur : Int)
      (acc : List AvailableSlot) (bStop : Int),
      cur + dur ≤ we →
      findBlockingStop cur (cur + dur) blocked = some bStop →
      slotScan we dur blocked (fuel + 1) cur acc =
        if bStop ≥ we then some acc
        else slotScan we dur blocked fuel bStop acc) ∧
    get_available_slots scanDB 1 480 840 60 =
      some [⟨480, 540⟩, ⟨660, 720⟩, ⟨720, 780⟩, ⟨780, 840⟩] := by
  constructor
  · intro we dur blocked fuel cur acc bStop hle hfind
    simp only [slotScan]
    rw [if_pos hle, hfind]
  · decide

/-- C2, witness: one blocked step of the scan on the `[540, 660)` blocking
interval — the cursor at 540 jumps to 660, not to 600. -/
theorem scan_skips_past_block_witness :
    (540 : Int) + 60 ≤ 840 ∧
      findBlockingStop 540 (540 + 60) [⟨540, 660⟩] = some 660 ∧
      slotScan 840 60 [⟨540, 660⟩] (5 + 1) 540 [] =
        (if (660 : Int) ≥ 840 then some []
          else slotScan 840 60 [⟨540, 660⟩] 5 660 []) :=
  ⟨by decide, by decide,
    scan_skips_past_block.1 840 60 [⟨540, 660⟩] 5 540 [] 660 (by decide)
      (by decide)⟩

/-- C4, counterexample.  A *pending* reservation does not block slots: the
blocked set is built from `get_bookings_by_resource(..., status='approved')`,
so on `pendingDB` (one pending `[540, 660)` booking on resource 1) the
blocked set is empty and the enumeration differs from `scanDB` (the same
booking, approved), where the reservation is in the blocked set and blocks
its slots. -/
theorem c4_pending_not_blocked_counterexample :
    blockedTimes pendingDB 1 480 840 = [] ∧
      blockedTimes scanDB 1 480 840 = [⟨540, 660⟩] ∧
      get_available_slots pendingDB 1 480 840 60 ≠
        get_available_slots scanDB 1 480 840 60 := by
  decide

/-- C4 (amended): the slot enumerator's blocked set consists of exactly the
*approved* reservations of the resource returned by the repository query —
those with `end_datetime ≥ window.start` and `start_datetime ≤ window.end`
(weak overlap), provided at most 100 such rows exist (the query is capped
at `LIMIT 100`) — together with the blackout slots of the resource that
strictly overlap the window; pending reservations never block. -/
theorem blocked_set_characterization (db : DB) (rid : Nat) (ws we : Int)
    (hlen : (db.bookings.filter
      (resourceRangeMatches rid (some ws) (some we)
        (some .approved))).length ≤ 100)
    (t : BlockedTime) :
    t ∈ blockedTimes db rid ws we ↔
      ((∃ b ∈ db.bookings,
          b.resource_id = rid ∧ b.status = .approved ∧
          ws ≤ b.end_datetime ∧ b.start_datetime ≤ we ∧
          t = ⟨b.start_datetime, b.end_datetime⟩) ∨
        (∃ u ∈ db.unavailable_slots,
          u.resource_id = rid ∧ u.start_datetime < we ∧
          ws < u.end_datetime ∧
          t = ⟨u.start_datetime, u.end_datetime⟩)) := by
  unfold blockedTimes
  rw [get_bookings_by_resource_no_truncation db rid (some ws) (some we)
    (some .approved) hlen, mem_sortBlocked]
  simp only [List.mem_append, List.mem_map, mem_sortByStart,
    List.mem_filter]
  apply or_congr
  · constructor
    · rintro ⟨b, ⟨hbmem, hbmatch⟩, ht⟩
      obtain ⟨h1, h2, h3, h4⟩ :=
        (resourceRangeMatches_iff rid ws we b).mp hbmatch
      exact ⟨b, hbmem, h1, h4, h2, h3, ht.symm⟩
    · rintro ⟨b, hbmem, h1, h4, h2, h3, ht⟩
      exact ⟨b, ⟨hbmem,
        (resourceRangeMatches_iff rid ws we b).mpr ⟨h1, h2, h3, h4⟩⟩,
        ht.symm⟩
  · constructor
    · rintro ⟨u, ⟨humem, humatch⟩, ht⟩
      obtain ⟨h1, h2, h3⟩ := (unavailableMatches_iff rid ws we u).mp humatch
      exact ⟨u, humem, h1, h2, h3, ht.symm⟩
    · rintro ⟨u, humem, h1, h2, h3, ht⟩
      exact ⟨u, ⟨humem,
        (unavailableMatches_iff rid ws we u).mpr ⟨h1, h2, h3⟩⟩, ht.symm⟩

/-- C4, witness: the characterization applied to `scanDB` and the block
`[540, 660)` stemming from its approved booking. -/
theorem blocked_set_characterization_witness :
    (scanDB.bookings.filter
      (resourceRangeMatches 1 (some 480) (some 840)
        (some .approved))).length ≤ 100 ∧
    ((⟨540, 660⟩ : BlockedTime) ∈ blockedTimes scanDB 1 480 840 ↔
      ((∃ b ∈ scanDB.bookings,
          b.resource_id = 1 ∧ b.status = .approved ∧
          (480 : Int) ≤ b.end_datetime ∧ b.start_datetime ≤ 840 ∧
          (⟨540, 660⟩ : BlockedTime) =
            ⟨b.start_datetime, b.end_datetime⟩) ∨
        (∃ u ∈ scanDB.unavailable_slots,
          u.resource_id = 1 ∧ u.start_datetime < 840 ∧
          (480 : Int) < u.end_datetime ∧
          (⟨540, 660⟩ : BlockedTime) =
            ⟨u.start_datetime, u.end_datetime⟩))) :=
  ⟨by decide,
    blocked_set_characterization scanDB 1 480 840 (by decide) ⟨540, 660⟩⟩

/-- C6 (confirmed): with an empty blocked set the enumeration is exactly
the back-to-back tiling of the window into duration-length chunks with the
final incomplete chunk dropped (`spec_tiling`); concretely, for window
`[480, 1080)` (08:00–18:00) and 120-minute slots on the empty repository
the result is exactly the five slots `[480, 600), ..., [960, 1080)`; every
returned slot has length exactly the slot duration (so none is shorter);
and when the duration exceeds the window length the result is empty. -/
theorem empty_blocked_tiling :
    (∀ (db : DB) (rid : Nat) (ws we dur : Int), 1 ≤ dur →
      blockedTimes db rid ws we = [] →
      get_available_slots db rid ws we dur =
        some (spec_tiling we dur ((we - ws).toNat + 1) ws)) ∧
    get_available_slots emptyDB 1 480 1080 120 =
      some [⟨480, 600⟩, ⟨600, 720⟩, ⟨720, 840⟩, ⟨840, 960⟩,
        ⟨960, 1080⟩] ∧
    (∀ (db : DB) (rid : Nat) (ws we dur : Int)
      (out : List AvailableSlot),
      get_available_slots db rid ws we dur = some out →
      ∀ sl ∈ out, sl.end_datetime - sl.start_datetime = dur) ∧
    (∀ (db : DB) (rid : Nat) (ws we dur : Int), 0 < dur →
      we - ws < dur → get_available_slots db rid ws we dur = some []) := by
  refine ⟨?_, by decide, ?_, ?_⟩
  · intro db rid ws we dur hdur hblocked
    unfold get_available_slots
    rw [hblocked]
    simpa using
      slotScan_nil_tiling we dur hdur ((we - ws).toNat + 1) ws []
        (by omega)
  · intro db rid ws we dur out h sl hsl
    unfold get_available_slots at h
    rcases slotScan_mem_length we dur (blockedTimes db rid ws we)
        ((we - ws).toNat + 1) ws [] out h sl hsl with hmem | hlen
    · simp at hmem
    · exact hlen
  · intro db rid ws we dur hdur hlt
    unfold get_available_slots
    have hnle : ¬(ws + dur ≤ we) := by omega
    simp [slotScan, hnle]

/-- C6, witness: the tiling equality on the empty repository, the
slot-length property on a slot of the `scanDB` enumeration, and the
empty result for a duration exceeding the window. -/
theorem empty_blocked_tiling_witness :
    (1 : Int) ≤ 120 ∧
      blockedTimes emptyDB 1 480 1080 = [] ∧
      get_available_slots emptyDB 1 480 1080 120 =
        some (spec_tiling 1080 120 (((1080 : Int) - 480).toNat + 1) 480) ∧
      (⟨480, 540⟩ : AvailableSlot).end_datetime -
        (⟨480, 540⟩ : AvailableSlot).start_datetime = 60 ∧
      get_available_slots emptyDB 1 0 100 120 = some [] :=
  ⟨by decide, by decide,
    empty_blocked_tiling.1 emptyDB 1 480 1080 120 (by decide) (by decide),
    empty_blocked_tiling.2.2.1 scanDB 1 480 840 60
      [⟨480, 540⟩, ⟨660, 720⟩, ⟨720, 780⟩, ⟨780, 840⟩] (by decide)
      ⟨480, 540⟩ (by decide),
    empty_blocked_tiling.2.2.2 emptyDB 1 0 100 120 (by decide) (by decide)⟩

/-- C10 (confirmed): the scan loop terminates for every window with
`end ≥ start`, every finite blocked set and every strictly positive slot
duration — each iteration strictly increases the cursor (to the candidate
end, or to an overlapping blocking interval's end, which the overlap test
guarantees exceeds the cursor), so fuel `(end - cursor).toNat + 1` always
suffices and `get_available_slots` exits the loop normally. -/
theorem slot_scan_terminates :
    (∀ (we dur : Int) (blocked : List BlockedTime) (fuel : Nat) (cur : Int)
      (acc : List AvailableSlot), 0 < dur → (we - cur).toNat < fuel →
      (slotScan we dur blocked fuel cur acc).isSome = true) ∧
    (∀ (db : DB) (rid : Nat) (ws we dur : Int), ws ≤ we → 0 < dur →
      (get_available_slots db rid ws we dur).isSome = true) := by
  constructor
  · intro we dur blocked fuel cur acc hdur hfuel
    exact slotScan_isSome_of_fuel we dur blocked (by omega) fuel cur acc
      hfuel
  · intro db rid ws we dur hwin hdur
    unfold get_available_slots
    exact slotScan_isSome_of_fuel we dur (blockedTimes db rid ws we)
      (by omega) ((we - ws).toNat + 1) ws [] (by omega)

/-- C10, witness: termination on a concrete blocked scan and on the
`scanDB` enumeration. -/
theorem slot_scan_terminates_witness :
    (0 : Int) < 60 ∧ ((840 : Int) - 480).toNat < 361 ∧
      (slotScan 840 60 [⟨540, 660⟩] 361 480 []).isSome = true ∧
      (480 : Int) ≤ 840 ∧
      (get_available_slots scanDB 1 480 840 60).isSome = true :=
  ⟨by decide, by decide,
    slot_scan_terminates.1 840 60 [⟨540, 660⟩] 361 480 [] (by decide)
      (by decide),
    by decide,
    slot_scan_terminates.2 scanDB 1 480 840 60 (by decide) (by decide)⟩

end CampusHub
